import Mathlib

/-!
Verification of the Logiq log-intelligence pipeline: a shallow embedding of
the ingestion task (`app/tasks.py`), the attribute merge
(`app/schemas/logs.py`), the transactional session scope
(`app/db/session.py`), the LLM service (`app/services/llm.py`) and the RAG
pipeline (`app/services/rag.py`), together with theorems settling the spec's
claims about them.
-/

namespace Logiq

/-- Attribute values stored in a log's open `attributes` mapping
(`Dict[str, Any]` in the source). -/
inductive AttrVal where
  | str : String → AttrVal
  | int : Int → AttrVal
  | boolean : Bool → AttrVal
  | null : AttrVal
deriving DecidableEq

/-- Model of a Python `datetime`: a wall-clock reading (an integer count of
seconds) together with an optional UTC offset. `off = none` models a
timezone-naive value; `off = some o` a timezone-aware value at offset `o`
seconds east of UTC. -/
structure PyDatetime where
  wall : Int
  off : Option Int
deriving DecidableEq

/-- `datetime.replace(tzinfo=timezone.utc)`: attach UTC without moving the
wall clock, i.e. interpret the reading as UTC. -/
def PyDatetime.replaceTzUtc (d : PyDatetime) : PyDatetime := ⟨d.wall, some 0⟩

/-- `datetime.astimezone(timezone.utc)` on a timezone-aware value: convert to
UTC. The ingestion code only applies it to aware values; on a naive value the
model keeps the reading (same as aware at offset 0). -/
def PyDatetime.astimezoneUtc (d : PyDatetime) : PyDatetime :=
  match d.off with
  | some o => ⟨d.wall - o, some 0⟩
  | none => ⟨d.wall, some 0⟩

/-- The UTC instant a datetime denotes (a naive value read at offset 0). -/
def PyDatetime.instant (d : PyDatetime) : Int := d.wall - d.off.getD 0

/-- The `log_timestamp` field of a task payload as `tasks._parse_timestamp`
receives it: a `datetime`, a string, or absent (`payload.get` returned
`None`; any other non-datetime non-string value takes the same final
branch as `absent`). -/
inductive TSInput where
  | dt : PyDatetime → TSInput
  | str : String → TSInput
  | absent : TSInput
deriving DecidableEq

/-- `tasks._parse_timestamp`. `fromiso` stands for the external
`datetime.fromisoformat` (returning `none` where Python raises
`ValueError`); `now` is the current UTC instant, `datetime.now(timezone.utc)`.
Returns the derived datetime together with a flag recording whether the
parse-failure warning was logged. -/
def parse_timestamp (fromiso : String → Option PyDatetime) (now : Int) :
    TSInput → PyDatetime × Bool
  | .dt d =>
      if d.off = none then (d.replaceTzUtc, false)
      else (d.astimezoneUtc, false)
  | .str s =>
      let normalized := s.replace "Z" "+00:00"
      match fromiso normalized with
      | none => (⟨now, some 0⟩, true)
      | some parsed =>
          let parsed' := if parsed.off = none then parsed.replaceTzUtc else parsed
          (parsed'.astimezoneUtc, false)
  | .absent => (⟨now, some 0⟩, false)

/-- Association-list model of a Python `dict` over string keys. -/
abbrev Dict := List (String × AttrVal)

/-- `merged.update(upd)` applied to `merged = {**base}`: existing keys keep
their position with values replaced from `upd`; keys new in `upd` are
appended in `upd`'s order. -/
def dictUpdate (base upd : Dict) : Dict :=
  (base.map fun kv =>
    match upd.lookup kv.1 with
    | some v => (kv.1, v)
    | none => kv)
  ++ upd.filter fun kv => (base.lookup kv.1).isNone

/-- `d.pop(k, None)`: remove key `k` from the dict. -/
def dictPop (k : String) (d : Dict) : Dict := d.filter fun kv => kv.1 != k

/-- The five reserved keys stripped by `LogIngestPayload.merged_attributes`. -/
def reservedKeys : List String :=
  ["service", "level", "message", "log_timestamp", "attributes"]

/-- `schemas.logs.LogIngestPayload`: the typed fields plus the open extra
fields that pydantic collects into `model_extra` under `extra="allow"`. -/
structure LogIngestPayload where
  service : String
  level : String
  message : String
  log_timestamp : Option PyDatetime
  attributes : Dict
  extras : Dict
deriving DecidableEq

/-- `LogIngestPayload.merged_attributes`: start from the extras, overlay the
explicit `attributes` map (`self.attributes or {}` — the empty dict is falsy
and collapses to `{}`, which coincides with itself), then pop each reserved
key from the merged result. -/
def LogIngestPayload.merged_attributes (p : LogIngestPayload) : Dict :=
  reservedKeys.foldl (fun merged k => dictPop k merged)
    (dictUpdate p.extras p.attributes)

/-- `db.models.LogRecord` — the fields the core pipeline reads and writes. -/
structure LogRecord where
  service : String
  level : String
  message : String
  log_timestamp : PyDatetime
  attributes : Dict
  embedding : Option (List ℚ)
deriving DecidableEq

/-- The payload dict consumed by `tasks.process_log` (`service`, `level`,
`message` accessed by key; `log_timestamp` and `attributes` via
`payload.get`). -/
structure TaskPayload where
  service : String
  level : String
  message : String
  log_timestamp : TSInput
  attributes : Option Dict
deriving DecidableEq

/-- `db.session.db_session_scope` specialised to the single ingestion write:
`commit` is the external outcome of `session.commit()`. On success the
pending record is appended to the database; on failure the session rolls
back, the database is unchanged and the error re-raised. -/
def db_session_scope (db : List LogRecord) (pending : LogRecord) :
    Except String Unit → List LogRecord × Except String Unit
  | .ok _ => (db ++ [pending], .ok ())
  | .error e => (db, .error e)

/-- Python `str.upper()` as used on log levels (character-wise upper-casing;
spelled on the underlying character list so that it evaluates by kernel
reduction). -/
def pyUpper (s : String) : String := ⟨s.data.map Char.toUpper⟩

/-- External effects consumed by one run of `tasks.process_log`: the
timestamp parser and clock, the outcome of
`embedding_service.embed_text(record.message)` and of the transaction
commit. -/
structure TaskEnv where
  fromiso : String → Option PyDatetime
  now : Int
  embedResult : Except String (List ℚ)
  commitResult : Except String Unit

/-- `tasks.process_log`: derive the timestamp, read the attributes
(`payload.get("attributes") or {}` — `none` and the falsy empty dict both
give `{}`, i.e. `Option.getD []`), build the record with the level
upper-cased, compute the embedding (an embedding error aborts before any
database work begins), then persist inside `db_session_scope`. Returns the
database after the attempt and either the stored record or the raised
error. -/
def process_log (env : TaskEnv) (p : TaskPayload) (db : List LogRecord) :
    List LogRecord × Except String LogRecord :=
  let ts := (parse_timestamp env.fromiso env.now p.log_timestamp).1
  let attrs := p.attributes.getD []
  match env.embedResult with
  | .error e => (db, .error e)
  | .ok v =>
      let record : LogRecord := ⟨p.service, pyUpper p.level, p.message, ts, attrs, some v⟩
      match db_session_scope db record env.commitResult with
      | (db', .ok _) => (db', .ok record)
      | (db', .error e) => (db', .error e)

/-- Mutable state of `services.llm.LLMService` relevant to model loading:
`model_path` fixed at construction, the `_load_failed` latch, the recorded
`_load_error`, and whether `_llm` holds a loaded instance. -/
structure LLMState where
  modelPath : Option String
  loadFailed : Bool
  loadError : Option String
  llm : Bool
deriving DecidableEq

/-- The environment one call observes: whether the model file exists on disk,
whether the `llama_cpp` bindings imported, the outcome of the `Llama(...)`
construction if it is attempted, and the raw completion text the loaded
model would return. -/
structure LLMEnv where
  pathExists : Bool
  llamaInstalled : Bool
  loadResult : Except String Unit
  completionText : String

/-- `LLMService.__init__` with the given model path. -/
def LLMService.init (modelPath : Option String) : LLMState :=
  ⟨modelPath, false, none, false⟩

/-- Result of `LLMService._ensure_model`: the updated state, whether a model
instance is available, and whether this call reached the `Llama(...)`
constructor (instrumentation for the no-retry property). -/
structure EnsureResult where
  st : LLMState
  available : Bool
  attemptedLoad : Bool
deriving DecidableEq

/-- `LLMService._ensure_model`: return the cached instance if loaded;
short-circuit on a missing path, a latched load failure, a missing model
file, or missing bindings (recording the reason); otherwise attempt the
load, latching `_load_failed` with the reason if it raises. -/
def ensure_model (st : LLMState) (env : LLMEnv) : EnsureResult :=
  if st.llm then ⟨st, true, false⟩
  else
    match st.modelPath with
    | none =>
        ⟨⟨st.modelPath, st.loadFailed, some "No LLM model path configured.", st.llm⟩,
          false, false⟩
    | some path =>
        if st.loadFailed then ⟨st, false, false⟩
        else if !env.pathExists then
          ⟨⟨st.modelPath, st.loadFailed,
             some ("Model file " ++ path ++ " does not exist."), st.llm⟩, false, false⟩
        else if !env.llamaInstalled then
          ⟨⟨st.modelPath, st.loadFailed,
             some "llama_cpp Python bindings are not installed.", st.llm⟩, false, false⟩
        else
          match env.loadResult with
          | .ok _ => ⟨⟨st.modelPath, st.loadFailed, none, true⟩, true, true⟩
          | .error e => ⟨⟨st.modelPath, true, some e, false⟩, false, true⟩

/-- The dict produced by `LogRecord.to_dict`, restricted to the four fields
the LLM layer reads (`log_timestamp` already rendered to its ISO string). -/
structure LogView where
  log_timestamp : String
  service : String
  level : String
  message : String
deriving DecidableEq

/-- `datetime.isoformat`, modelled abstractly as an injective rendering of
the reading and offset; the pipeline only ever displays this string. -/
def PyDatetime.isoformat (d : PyDatetime) : String :=
  toString d.wall ++ (match d.off with | some o => "+" ++ toString o | none => "")

/-- The part of `LogRecord.to_dict` consumed by `LLMService`. -/
def LogRecord.toView (r : LogRecord) : LogView :=
  ⟨r.log_timestamp.isoformat, r.service, r.level, r.message⟩

/-- One line of the extractive fallback listing — the loop body of
`LLMService._fallback_answer`. -/
def fallbackLine (item : LogView) : String :=
  "- " ++ item.log_timestamp ++ " [" ++ item.service ++ ":" ++ item.level ++ "] "
    ++ item.message

/-- `LLMService._fallback_answer`: with no logs, a plain statement that none
were found; otherwise the recorded unavailability reason, the question, a
header, and one listing line per provided log, joined by newlines. -/
def fallback_answer (loadError : Option String) (question : String)
    (logs : List LogView) : String :=
  if logs.isEmpty then
    "No relevant logs were found to answer the question."
  else
    let reason := loadError.getD "Unable to access the configured LLM."
    String.intercalate "\n"
      ([reason ++ " Returning raw log details instead.",
        "Question: " ++ question,
        "Top matching logs:"] ++ logs.map fallbackLine)

/-- `LLMService.generate`: ensure the model; when unavailable, or when the
completion text is empty after stripping, return the extractive fallback.
Returns the updated service state and the answer text. -/
def generate (st : LLMState) (env : LLMEnv) (question : String)
    (logs : List LogView) : LLMState × String :=
  let r := ensure_model st env
  if r.available then
    let text := env.completionText.trim
    if text = "" then (r.st, fallback_answer r.st.loadError question logs)
    else (r.st, text)
  else
    (r.st, fallback_answer r.st.loadError question logs)

/-- `schemas.query.LogQueryFilters`: four optional predicates. -/
structure LogQueryFilters where
  service : Option String
  level : Option String
  start_time : Option PyDatetime
  end_time : Option PyDatetime
deriving DecidableEq

/-- The all-absent filter set (all fields default to `None`). -/
def LogQueryFilters.none_ : LogQueryFilters := ⟨none, none, none, none⟩

/-- `schemas.query.LogQueryRequest` after pydantic validation. -/
structure LogQueryRequest where
  query : String
  filters : LogQueryFilters
  limit : Nat
deriving DecidableEq

/-- Pydantic validation of `LogQueryRequest` (`limit: int = Field(ge=1,
le=50)`): constructing a request with a non-positive (or over-large) limit
fails synchronously with a validation error, before any retrieval work. -/
def LogQueryRequest.validate (query : String) (filters : LogQueryFilters)
    (limit : Int) : Except String LogQueryRequest :=
  if limit < 1 then .error "limit: Input should be greater than or equal to 1"
  else if 50 < limit then .error "limit: Input should be less than or equal to 50"
  else .ok ⟨query, filters, limit.toNat⟩

/-- The `Select` statement assembled by `RAGPipeline._build_query`: the
where-clauses actually attached, plus the `LIMIT`. A clause is attached only
when the filter value is truthy in Python (`if filters.service:`), so an
empty-string service or level attaches nothing; datetimes are always truthy.
Ordering is by the cosine-distance expression labelled `score`. -/
structure SelectStmt where
  serviceEq : Option String
  levelEq : Option String
  tsGe : Option PyDatetime
  tsLe : Option PyDatetime
  limit : Nat
deriving DecidableEq

/-- `RAGPipeline._build_query`. -/
def build_query (filters : LogQueryFilters) (limit : Nat) : SelectStmt :=
  ⟨(filters.service.bind fun s => if s = "" then none else some s),
   (filters.level.bind fun s => if s = "" then none else some s),
   filters.start_time, filters.end_time, limit⟩

/-- Whether a stored record satisfies every attached where-clause of the
statement (SQL `WHERE`, a conjunction). -/
def rowMatches (q : SelectStmt) (r : LogRecord) : Bool :=
  (match q.serviceEq with | some s => r.service == s | none => true) &&
  (match q.levelEq with | some s => r.level == s | none => true) &&
  (match q.tsGe with
    | some t => decide (t.instant ≤ r.log_timestamp.instant)
    | none => true) &&
  (match q.tsLe with
    | some t => decide (r.log_timestamp.instant ≤ t.instant)
    | none => true)

/-- Modelled from the spec: the persistence layer's ranked-filtered-search
primitive (spec section 6) executing the statement built by `_build_query`,
which is not part of this repository's sources — the records satisfying the
`WHERE` conjunction, paired with the distance expression `dist` (the cosine
distance of each record's embedding to the query vector), ordered ascending
by it, truncated to `LIMIT`. SQL leaves tie order unspecified; the model
fixes it with a stable sort. -/
def execSelect (dist : LogRecord → ℚ) (db : List LogRecord) (q : SelectStmt) :
    List (LogRecord × ℚ) :=
  ((((db.filter (rowMatches q)).map fun r => (r, dist r)).mergeSort
      fun a b => decide (a.2 ≤ b.2)).take q.limit)

/-- `RAGPipeline.retrieve`: embed the question (absorbed into `dist`), build
the statement, execute it, and keep the (record, score) rows in order. -/
def RAGPipeline.retrieve (dist : LogRecord → ℚ) (db : List LogRecord)
    (request : LogQueryRequest) : List (LogRecord × ℚ) :=
  execSelect dist db (build_query request.filters request.limit)

/-- `schemas.query.LogQueryResponse`. -/
structure LogQueryResponse where
  answer : String
  logs : List LogView
  contexts : List (ℚ × LogView)
  requested_k : Nat
  used_k : Nat
deriving DecidableEq

/-- The slice of `core.config.Settings` the pipeline reads. -/
structure Settings where
  max_context_logs : Nat
deriving DecidableEq

/-- Default settings: `MAX_CONTEXT_LOGS` defaults to 10. -/
def defaultSettings : Settings := ⟨10⟩

/-- `RAGPipeline.answer`: retrieve, hand the first `max_context_logs`
candidate dicts to `generate`, and assemble the response from the full
retrieved list. Returns the updated LLM state and the response. -/
def RAGPipeline.answer (settings : Settings) (st : LLMState) (env : LLMEnv)
    (dist : LogRecord → ℚ) (db : List LogRecord) (request : LogQueryRequest) :
    LLMState × LogQueryResponse :=
  let retrieved := RAGPipeline.retrieve dist db request
  let logsAsDict := retrieved.map fun rc => rc.1.toView
  let g := generate st env request.query (logsAsDict.take settings.max_context_logs)
  let contexts := retrieved.map fun rc => (rc.2, rc.1.toView)
  (g.1, ⟨g.2, contexts.map fun c => c.2, contexts, request.limit, retrieved.length⟩)

/-- Sample database of eleven records at increasing distance (the wall-clock
reading doubles as the distance under `sampleDist`), used to exercise the
context-window truncation. -/
def sampleDb : List LogRecord :=
  [⟨"s", "E", "m0", ⟨0, some 0⟩, [], none⟩,
   ⟨"s", "E", "m1", ⟨1, some 0⟩, [], none⟩,
   ⟨"s", "E", "m2", ⟨2, some 0⟩, [], none⟩,
   ⟨"s", "E", "m3", ⟨3, some 0⟩, [], none⟩,
   ⟨"s", "E", "m4", ⟨4, some 0⟩, [], none⟩,
   ⟨"s", "E", "m5", ⟨5, some 0⟩, [], none⟩,
   ⟨"s", "E", "m6", ⟨6, some 0⟩, [], none⟩,
   ⟨"s", "E", "m7", ⟨7, some 0⟩, [], none⟩,
   ⟨"s", "E", "m8", ⟨8, some 0⟩, [], none⟩,
   ⟨"s", "E", "m9", ⟨9, some 0⟩, [], none⟩,
   ⟨"s", "E", "m10", ⟨10, some 0⟩, [], none⟩]

/-- Distance form used with `sampleDb`. -/
def sampleDist (r : LogRecord) : ℚ := (r.log_timestamp.wall : ℚ)

/-- A query requesting eleven candidates, no filters. -/
def sampleRequest : LogQueryRequest := ⟨"q", LogQueryFilters.none_, 11⟩

/-- Looking up a key in the overlaid copy of the base dict (the `List.map`
part of `dictUpdate`). -/
theorem lookup_overlay (b u : Dict) (k : String) :
    (b.map fun kv =>
        match u.lookup kv.1 with
        | some v => (kv.1, v)
        | none => kv).lookup k =
      match b.lookup k with
      | some w => some ((u.lookup k).getD w)
      | none => none := by
  induction b with
  | nil => simp
  | cons hd tl ih =>
      obtain ⟨k₁, v₁⟩ := hd
      by_cases hk : k = k₁
      · subst hk
        cases hu : u.lookup k <;> simp [List.lookup, hu]
      · cases hu2 : u.lookup k₁ <;>
          simp [List.lookup, beq_false_of_ne hk, hu2, ih]

/-- Looking up a key among the appended new entries (the `List.filter` part
of `dictUpdate`). -/
theorem lookup_residual (b u : Dict) (k : String) :
    (u.filter fun kv => (b.lookup kv.1).isNone).lookup k =
      match b.lookup k with
      | some _ => none
      | none => u.lookup k := by
  induction u with
  | nil => cases hb : b.lookup k <;> simp
  | cons hd tl ih =>
      obtain ⟨k₂, v₂⟩ := hd
      by_cases hk : k = k₂
      · subst hk
        cases hb : b.lookup k <;> simp [List.filter, List.lookup, hb, ih]
      · cases hb2 : b.lookup k₂ <;> cases hb : b.lookup k <;>
          simp [List.filter, List.lookup, beq_false_of_ne hk, hb2, hb, ih]

/-- Lookup distributes over list append, first list first. -/
theorem lookup_append_dict (l₁ l₂ : Dict) (k : String) :
    (l₁ ++ l₂).lookup k =
      match l₁.lookup k with
      | some v => some v
      | none => l₂.lookup k := by
  induction l₁ with
  | nil => simp
  | cons hd tl ih =>
      obtain ⟨k₁, v₁⟩ := hd
      by_cases hk : k = k₁
      · simp [List.lookup, hk]
      · simp [List.lookup, beq_false_of_ne hk, ih]

/-- `dictUpdate` gives the updating dict precedence on every key. -/
theorem lookup_dictUpdate (b u : Dict) (k : String) :
    (dictUpdate b u).lookup k =
      match u.lookup k with
      | some v => some v
      | none => b.lookup k := by
  unfold dictUpdate
  rw [lookup_append_dict, lookup_overlay, lookup_residual]
  cases hb : b.lookup k <;> cases hu : u.lookup k <;> simp [hb, hu]

/-- A popped key is gone. -/
theorem lookup_dictPop_self (d : Dict) (k : String) :
    (dictPop k d).lookup k = none := by
  induction d with
  | nil => simp [dictPop]
  | cons hd tl ih =>
      obtain ⟨k₁, v₁⟩ := hd
      by_cases hk : k₁ = k
      · subst hk
        simpa [dictPop, List.filter, bne_self_eq_false] using ih
      · have hb : (k₁ != k) = true := by simp [bne, beq_false_of_ne hk]
        have hb2 : (k == k₁) = false := beq_false_of_ne fun h => hk h.symm
        simpa [dictPop, List.filter, List.lookup, hb, hb2] using ih

/-- Popping one key leaves every other key's binding unchanged. -/
theorem lookup_dictPop_other (d : Dict) (k k' : String) (h : k' ≠ k) :
    (dictPop k d).lookup k' = d.lookup k' := by
  induction d with
  | nil => simp [dictPop]
  | cons hd tl ih =>
      obtain ⟨k₁, v₁⟩ := hd
      by_cases hk : k₁ = k
      · subst hk
        simpa [dictPop, List.filter, bne_self_eq_false, List.lookup,
          beq_false_of_ne h] using ih
      · have hb : (k₁ != k) = true := by simp [bne, beq_false_of_ne hk]
        by_cases hk' : k' = k₁
        · simp [dictPop, List.filter, List.lookup, hb, hk']
        · simpa [dictPop, List.filter, List.lookup, hb,
            beq_false_of_ne hk'] using ih

/-- The reserved-key fold of `merged_attributes`, unfolded. -/
theorem merged_attributes_eq (p : LogIngestPayload) :
    p.merged_attributes =
      dictPop "attributes" (dictPop "log_timestamp" (dictPop "message"
        (dictPop "level" (dictPop "service"
          (dictUpdate p.extras p.attributes))))) := rfl

/-- C6: the merge combines the payload's open extra fields with the explicit
attributes map, the explicit map winning on any key collision, and the
merged result never binds any of the five reserved keys, wherever those keys
appeared in the payload (extras or explicit attributes). -/
theorem merged_attributes_reserved_free (p : LogIngestPayload) (k : String) :
    (k ∈ reservedKeys → p.merged_attributes.lookup k = none) ∧
    (k ∉ reservedKeys →
       p.merged_attributes.lookup k =
         match p.attributes.lookup k with
         | some v => some v
         | none => p.extras.lookup k) := by
  rw [merged_attributes_eq]
  constructor
  · intro hk
    simp only [reservedKeys, List.mem_cons, List.not_mem_nil, or_false] at hk
    rcases hk with h | h | h | h | h <;> subst h
    · rw [lookup_dictPop_other _ _ _ (by decide),
        lookup_dictPop_other _ _ _ (by decide),
        lookup_dictPop_other _ _ _ (by decide),
        lookup_dictPop_other _ _ _ (by decide), lookup_dictPop_self]
    · rw [lookup_dictPop_other _ _ _ (by decide),
        lookup_dictPop_other _ _ _ (by decide),
        lookup_dictPop_other _ _ _ (by decide), lookup_dictPop_self]
    · rw [lookup_dictPop_other _ _ _ (by decide),
        lookup_dictPop_other _ _ _ (by decide), lookup_dictPop_self]
    · rw [lookup_dictPop_other _ _ _ (by decide), lookup_dictPop_self]
    · rw [lookup_dictPop_self]
  · intro hk
    simp only [reservedKeys, List.mem_cons, List.not_mem_nil, or_false,
      not_or] at hk
    obtain ⟨h1, h2, h3, h4, h5⟩ := hk
    rw [lookup_dictPop_other _ _ _ h5, lookup_dictPop_other _ _ _ h4,
      lookup_dictPop_other _ _ _ h3, lookup_dictPop_other _ _ _ h2,
      lookup_dictPop_other _ _ _ h1, lookup_dictUpdate]

/-- Witness for the C6 theorem: a payload carrying the reserved key
`service` among its extras and a collision on key `a` — after the merge,
`service` is gone and the explicit attributes value for `a` won. -/
theorem merged_attributes_reserved_free_witness :
    ("service" ∈ reservedKeys) ∧
    (LogIngestPayload.mk "svc" "lvl" "msg" none [("a", AttrVal.int 2)]
        [("service", AttrVal.null), ("a", AttrVal.int 1)]).merged_attributes.lookup
      "service" = none := by
  exact ⟨by decide,
    (merged_attributes_reserved_free
      ⟨"svc", "lvl", "msg", none, [("a", AttrVal.int 2)],
        [("service", AttrVal.null), ("a", AttrVal.int 1)]⟩ "service").1 (by decide)⟩

/-- Every timestamp `_parse_timestamp` returns is timezone-aware UTC. -/
theorem parse_timestamp_utc (fromiso : String → Option PyDatetime) (now : Int)
    (v : TSInput) : ((parse_timestamp fromiso now v).1).off = some 0 := by
  cases v with
  | dt d =>
      cases hd : d.off <;>
        simp [parse_timestamp, hd, PyDatetime.replaceTzUtc, PyDatetime.astimezoneUtc]
  | str s =>
      cases hf : fromiso (s.replace "Z" "+00:00") with
      | none => simp [parse_timestamp, hf]
      | some parsed =>
          cases hp : parsed.off <;>
            simp [parse_timestamp, hf, hp, PyDatetime.replaceTzUtc,
              PyDatetime.astimezoneUtc]
  | absent => simp [parse_timestamp]

/-- Inversion: a successful `process_log` run stored exactly the record built
from the payload, with a successfully computed embedding. -/
theorem process_log_ok_inv (env : TaskEnv) (p : TaskPayload) (db : List LogRecord)
    (r : LogRecord) (h : (process_log env p db).2 = .ok r) :
    ∃ v, env.embedResult = .ok v ∧
      r = ⟨p.service, pyUpper p.level, p.message,
           (parse_timestamp env.fromiso env.now p.log_timestamp).1,
           p.attributes.getD [], some v⟩ := by
  cases he : env.embedResult with
  | error e => simp [process_log, he] at h
  | ok v =>
      cases hc : env.commitResult with
      | error e => simp [process_log, db_session_scope, he, hc] at h
      | ok u =>
          refine ⟨v, rfl, ?_⟩
          simp [process_log, db_session_scope, he, hc] at h
          exact h.symm

/-- C2: for every payload the ingestion task persists, the record's `level`
is the input level upper-cased, and its `log_timestamp` is a timezone-aware
UTC datetime derived as specified: a naive datetime is interpreted as UTC; an
aware one is converted to UTC; a string is parsed after the literal `Z` is
rewritten to the `+00:00` UTC offset, a parse failure falling back to the
current UTC time with a recorded warning instead of failing the task; an
absent value yields the current UTC time. -/
theorem level_uppercased_timestamp_utc (env : TaskEnv) (p : TaskPayload)
    (db : List LogRecord) (r : LogRecord)
    (h : (process_log env p db).2 = .ok r) :
    r.level = pyUpper p.level ∧
    r.log_timestamp.off = some 0 ∧
    (∀ d, p.log_timestamp = .dt d → d.off = none →
       r.log_timestamp = ⟨d.wall, some 0⟩) ∧
    (∀ d o, p.log_timestamp = .dt d → d.off = some o →
       r.log_timestamp = ⟨d.wall - o, some 0⟩) ∧
    (∀ s, p.log_timestamp = .str s →
       env.fromiso (s.replace "Z" "+00:00") = none →
       r.log_timestamp = ⟨env.now, some 0⟩ ∧
       (parse_timestamp env.fromiso env.now p.log_timestamp).2 = true) ∧
    (∀ s d, p.log_timestamp = .str s →
       env.fromiso (s.replace "Z" "+00:00") = some d →
       r.log_timestamp = ⟨d.wall - d.off.getD 0, some 0⟩) ∧
    (p.log_timestamp = .absent → r.log_timestamp = ⟨env.now, some 0⟩) := by
  obtain ⟨v, -, hr⟩ := process_log_ok_inv env p db r h
  subst hr
  refine ⟨rfl, parse_timestamp_utc env.fromiso env.now p.log_timestamp,
    ?_, ?_, ?_, ?_, ?_⟩
  · intro d hd hoff
    simp [parse_timestamp, hd, hoff, PyDatetime.replaceTzUtc]
  · intro d o hd hoff
    simp [parse_timestamp, hd, hoff, PyDatetime.astimezoneUtc]
  · intro s hs hf
    simp [parse_timestamp, hs, hf]
  · intro s d hs hf
    cases hoff : d.off <;>
      simp [parse_timestamp, hs, hf, hoff, PyDatetime.replaceTzUtc,
        PyDatetime.astimezoneUtc]
  · intro hs
    simp [parse_timestamp, hs]

/-- Witness for the C2 theorem at a concrete payload: an absent timestamp
with `now = 5` and level `"error"`. -/
theorem level_uppercased_timestamp_utc_witness :
    (process_log ⟨fun _ => none, 5, .ok [(1 : ℚ)], .ok ()⟩
        ⟨"auth", "error", "boom", .absent, none⟩ []).2 =
      .ok ⟨"auth", "ERROR", "boom", ⟨5, some 0⟩, [], some [(1 : ℚ)]⟩ ∧
    ("ERROR" : String) = pyUpper "error" := by
  refine ⟨by rfl, ?_⟩
  exact (level_uppercased_timestamp_utc ⟨fun _ => none, 5, .ok [(1 : ℚ)], .ok ()⟩
    ⟨"auth", "error", "boom", .absent, none⟩ []
    ⟨"auth", "ERROR", "boom", ⟨5, some 0⟩, [], some [(1 : ℚ)]⟩ (by rfl)).1

/-- C4: the record is persisted within a single transaction — committed on
success, rolled back entirely on a commit failure — and an embedding failure
is a hard task failure that aborts before any database work, so no record,
partial or otherwise, is persisted in either failure case. -/
theorem ingestion_single_transaction (env : TaskEnv) (p : TaskPayload)
    (db : List LogRecord) :
    (∀ e, env.embedResult = .error e → process_log env p db = (db, .error e)) ∧
    (∀ v e, env.embedResult = .ok v → env.commitResult = .error e →
       process_log env p db = (db, .error e)) ∧
    (∀ v, env.embedResult = .ok v → env.commitResult = .ok () →
       process_log env p db =
         (db ++ [⟨p.service, pyUpper p.level, p.message,
                  (parse_timestamp env.fromiso env.now p.log_timestamp).1,
                  p.attributes.getD [], some v⟩],
          .ok ⟨p.service, pyUpper p.level, p.message,
               (parse_timestamp env.fromiso env.now p.log_timestamp).1,
               p.attributes.getD [], some v⟩)) := by
  refine ⟨?_, ?_, ?_⟩
  · intro e he
    simp [process_log, he]
  · intro v e he hc
    simp [process_log, db_session_scope, he, hc]
  · intro v he hc
    simp [process_log, db_session_scope, he, hc]

/-- Witness for the C4 theorem: an embedding failure leaves the database
untouched and fails the task. -/
theorem ingestion_single_transaction_witness :
    process_log ⟨fun _ => none, 0, .error "embed down", .ok ()⟩
        ⟨"s", "e", "m", .absent, none⟩ [] = ([], .error "embed down") := by
  exact (ingestion_single_transaction ⟨fun _ => none, 0, .error "embed down", .ok ()⟩
    ⟨"s", "e", "m", .absent, none⟩ []).1 "embed down" rfl

/-- C10: the persisted record's attributes map is exactly the payload's
attributes value as delivered (empty when the value is missing or falsy):
`process_log` performs no extras-merge and no reserved-key filtering, so a
reserved key present in the payload's attributes is stored verbatim. -/
theorem task_stores_attributes_verbatim (env : TaskEnv) (p : TaskPayload)
    (db : List LogRecord) (r : LogRecord)
    (h : (process_log env p db).2 = .ok r) :
    r.attributes = p.attributes.getD [] := by
  obtain ⟨v, -, hr⟩ := process_log_ok_inv env p db r h
  rw [hr]

/-- Witness for the C10 theorem: a payload whose attributes carry the
reserved key `service` is persisted with that key still present. -/
theorem task_stores_attributes_verbatim_witness :
    (process_log ⟨fun _ => none, 0, .ok [], .ok ()⟩
        ⟨"s", "e", "m", .absent, some [("service", AttrVal.null)]⟩ []).2 =
      .ok ⟨"s", "E", "m", ⟨0, some 0⟩, [("service", AttrVal.null)], some []⟩ ∧
    ([("service", AttrVal.null)] : Dict) =
      (some [("service", AttrVal.null)] : Option Dict).getD [] := by
  refine ⟨by rfl, ?_⟩
  exact task_stores_attributes_verbatim ⟨fun _ => none, 0, .ok [], .ok ()⟩
    ⟨"s", "e", "m", .absent, some [("service", AttrVal.null)]⟩ []
    ⟨"s", "E", "m", ⟨0, some 0⟩, [("service", AttrVal.null)], some []⟩ (by rfl)

/-- C7: a call with a zero or negative limit is rejected synchronously by
request validation (`Field(ge=1)`), as a contract violation: no
`LogQueryRequest` is produced, so no search is executed and nothing is
retried. -/
theorem nonpositive_limit_rejected (query : String) (filters : LogQueryFilters)
    (limit : Int) (h : limit ≤ 0) :
    LogQueryRequest.validate query filters limit =
      .error "limit: Input should be greater than or equal to 1" := by
  unfold LogQueryRequest.validate
  rw [if_pos (by omega)]

/-- Witness for the C7 theorem at limit 0. -/
theorem nonpositive_limit_rejected_witness :
    ((0 : Int) ≤ 0) ∧
    LogQueryRequest.validate "why" LogQueryFilters.none_ 0 =
      .error "limit: Input should be greater than or equal to 1" :=
  ⟨by decide, nonpositive_limit_rejected "why" LogQueryFilters.none_ 0 (by decide)⟩

/-- C5 counterexample: a missing-file load failure is not latched. With a
configured path whose file is absent, the first call reports unavailable with
the missing-file reason — but it does not set `_load_failed`, so when the
file appears a later `generate` call does attempt the load and the provider
becomes available, contradicting "no subsequent generate call ever attempts
the load again" and "remains unavailable for the rest of the process
lifetime". -/
theorem missing_file_failure_not_latched :
    (ensure_model (LLMService.init (some "m")) ⟨false, true, .ok (), ""⟩).available
      = false ∧
    (ensure_model (LLMService.init (some "m")) ⟨false, true, .ok (), ""⟩).st.loadError
      = some "Model file m does not exist." ∧
    (ensure_model (ensure_model (LLMService.init (some "m"))
        ⟨false, true, .ok (), ""⟩).st ⟨true, true, .ok (), ""⟩).attemptedLoad
      = true ∧
    (ensure_model (ensure_model (LLMService.init (some "m"))
        ⟨false, true, .ok (), ""⟩).st ⟨true, true, .ok (), ""⟩).available
      = true := by
  decide

/-- C5 (amended): Unconfigured is terminal — with no model path the provider
never attempts a load, stays unavailable and records the reason; a load
attempt that raised latches `_load_failed`, which is terminal — subsequent
calls return unavailable without reattempting the load and leave the state
(including the recorded reason) unchanged; and a loaded provider stays Ready
with no further load. (A missing-file or missing-bindings check, by
contrast, is re-evaluated on each call and is not terminal.) -/
theorem provider_terminal_states (st : LLMState) (env : LLMEnv) :
    (st.modelPath = none → st.llm = false →
       ensure_model st env =
         ⟨⟨none, st.loadFailed, some "No LLM model path configured.", false⟩,
           false, false⟩) ∧
    (∀ path, st.modelPath = some path → st.loadFailed = true → st.llm = false →
       ensure_model st env = ⟨st, false, false⟩) ∧
    (st.llm = true → ensure_model st env = ⟨st, true, false⟩) := by
  refine ⟨?_, ?_, ?_⟩
  · intro hp hl
    simp [ensure_model, hp, hl]
  · intro path hp hf hl
    simp [ensure_model, hp, hf, hl]
  · intro hl
    simp [ensure_model, hl]

/-- Witness for the C5 amended theorem: the latched LoadFailed state is
returned unchanged with no load attempt. -/
theorem provider_terminal_states_witness :
    (LLMState.mk (some "m") true (some "boom") false).loadFailed = true ∧
    ensure_model ⟨some "m", true, some "boom", false⟩ ⟨true, true, .ok (), ""⟩ =
      ⟨⟨some "m", true, some "boom", false⟩, false, false⟩ :=
  ⟨rfl, (provider_terminal_states ⟨some "m", true, some "boom", false⟩
    ⟨true, true, .ok (), ""⟩).2.1 "m" rfl rfl rfl⟩

/-- C9: the response's `used_k` equals the number of candidates retrieved,
which also equals the lengths of the returned `logs` and `contexts` lists;
`requested_k` echoes the caller's limit unchanged; zero candidates give
`used_k = 0`. -/
theorem response_reports_counts (settings : Settings) (st : LLMState)
    (env : LLMEnv) (dist : LogRecord → ℚ) (db : List LogRecord)
    (request : LogQueryRequest) :
    (RAGPipeline.answer settings st env dist db request).2.used_k =
      (RAGPipeline.retrieve dist db request).length ∧
    (RAGPipeline.answer settings st env dist db request).2.logs.length =
      (RAGPipeline.answer settings st env dist db request).2.used_k ∧
    (RAGPipeline.answer settings st env dist db request).2.contexts.length =
      (RAGPipeline.answer settings st env dist db request).2.used_k ∧
    (RAGPipeline.answer settings st env dist db request).2.requested_k =
      request.limit ∧
    (RAGPipeline.retrieve dist db request = [] →
      (RAGPipeline.answer settings st env dist db request).2.used_k = 0) := by
  refine ⟨by simp [RAGPipeline.answer], by simp [RAGPipeline.answer],
    by simp [RAGPipeline.answer], by simp [RAGPipeline.answer], ?_⟩
  intro h
  simp [RAGPipeline.answer, h]

/-- Witness for the C9 theorem: an empty database retrieves zero candidates
and reports `used_k = 0`. -/
theorem response_reports_counts_witness :
    RAGPipeline.retrieve (fun _ => (0 : ℚ)) [] ⟨"q", LogQueryFilters.none_, 5⟩ = [] ∧
    (RAGPipeline.answer defaultSettings (LLMService.init none)
        ⟨true, true, .ok (), ""⟩ (fun _ => (0 : ℚ)) []
        ⟨"q", LogQueryFilters.none_, 5⟩).2.used_k = 0 := by
  have h : RAGPipeline.retrieve (fun _ => (0 : ℚ)) []
      ⟨"q", LogQueryFilters.none_, 5⟩ = [] := by
    simp [RAGPipeline.retrieve, execSelect]
  exact ⟨h, (response_reports_counts defaultSettings (LLMService.init none)
    ⟨true, true, .ok (), ""⟩ (fun _ => (0 : ℚ)) []
    ⟨"q", LogQueryFilters.none_, 5⟩).2.2.2.2 h⟩

/-- The score comparator of `execSelect` is transitive. -/
theorem scoreLE_trans (a b c : LogRecord × ℚ)
    (hab : decide (a.2 ≤ b.2) = true) (hbc : decide (b.2 ≤ c.2) = true) :
    decide (a.2 ≤ c.2) = true := by
  simp only [decide_eq_true_eq] at hab hbc ⊢
  exact le_trans hab hbc

/-- The score comparator of `execSelect` is total. -/
theorem scoreLE_total (a b : LogRecord × ℚ) :
    (decide (a.2 ≤ b.2) || decide (b.2 ≤ a.2)) = true := by
  simp only [Bool.or_eq_true, decide_eq_true_eq]
  exact le_total a.2 b.2

/-- For any filter combination, retrieval output is ordered by ascending
score. -/
theorem retrieve_sorted (dist : LogRecord → ℚ) (db : List LogRecord)
    (request : LogQueryRequest) :
    (RAGPipeline.retrieve dist db request).Pairwise (fun a b => a.2 ≤ b.2) := by
  unfold RAGPipeline.retrieve execSelect
  apply List.Pairwise.sublist (List.take_sublist _ _)
  have hs := List.sorted_mergeSort scoreLE_trans scoreLE_total
    ((db.filter (rowMatches (build_query request.filters request.limit))).map
      fun r => (r, dist r))
  exact hs.imp fun h => by simpa using h

/-- Every retrieved candidate's record satisfies the where-clause
conjunction of the executed statement. -/
theorem mem_retrieve_matches (dist : LogRecord → ℚ) (db : List LogRecord)
    (request : LogQueryRequest) (x : LogRecord × ℚ)
    (hx : x ∈ RAGPipeline.retrieve dist db request) :
    rowMatches (build_query request.filters request.limit) x.1 = true := by
  unfold RAGPipeline.retrieve execSelect at hx
  have hx1 := List.mem_of_mem_take hx
  rw [List.mem_mergeSort] at hx1
  obtain ⟨r, hr, rfl⟩ := List.mem_map.mp hx1
  exact (List.mem_filter.mp hr).2

/-- Splitting a true `rowMatches` into its four clause facts. -/
theorem rowMatches_spec (q : SelectStmt) (r : LogRecord)
    (h : rowMatches q r = true) :
    (∀ s, q.serviceEq = some s → r.service = s) ∧
    (∀ s, q.levelEq = some s → r.level = s) ∧
    (∀ t, q.tsGe = some t → t.instant ≤ r.log_timestamp.instant) ∧
    (∀ t, q.tsLe = some t → r.log_timestamp.instant ≤ t.instant) := by
  unfold rowMatches at h
  simp only [Bool.and_eq_true] at h
  obtain ⟨⟨⟨h1, h2⟩, h3⟩, h4⟩ := h
  refine ⟨?_, ?_, ?_, ?_⟩
  · intro s hs
    rw [hs] at h1
    exact eq_of_beq h1
  · intro s hs
    rw [hs] at h2
    exact eq_of_beq h2
  · intro t ht
    rw [ht] at h3
    exact of_decide_eq_true h3
  · intro t ht
    rw [ht] at h4
    exact of_decide_eq_true h4

/-- C3: for every query vector (absorbed into the distance form), filter
combination and positive limit, retrieval returns candidates ascending by
score (best match first), at most `limit` of them; and when fewer than
`limit` records satisfy the applied filters, exactly those records are
returned — no error, no padding. -/
theorem retrieval_sorted_bounded_complete (dist : LogRecord → ℚ)
    (db : List LogRecord) (request : LogQueryRequest)
    (hpos : 0 < request.limit) :
    (RAGPipeline.retrieve dist db request).Pairwise (fun a b => a.2 ≤ b.2) ∧
    (RAGPipeline.retrieve dist db request).length ≤ request.limit ∧
    ((db.filter (rowMatches (build_query request.filters request.limit))).length
        < request.limit →
      (RAGPipeline.retrieve dist db request).Perm
        ((db.filter (rowMatches (build_query request.filters request.limit))).map
          fun r => (r, dist r))) := by
  refine ⟨retrieve_sorted dist db request, ?_, ?_⟩
  · unfold RAGPipeline.retrieve execSelect
    exact List.length_take_le _ _
  · intro hlt
    unfold RAGPipeline.retrieve execSelect
    rw [List.take_of_length_le]
    · exact List.mergeSort_perm _ _
    · rw [List.length_mergeSort, List.length_map]
      exact Nat.le_of_lt hlt

/-- Witness for the C3 theorem: a two-record database, limit 5. -/
theorem retrieval_sorted_bounded_complete_witness :
    (0 < 5) ∧
    (RAGPipeline.retrieve (fun r => (r.log_timestamp.wall : ℚ))
        [⟨"a", "E", "m1", ⟨2, some 0⟩, [], none⟩,
         ⟨"b", "E", "m2", ⟨1, some 0⟩, [], none⟩]
        ⟨"q", LogQueryFilters.none_, 5⟩).length ≤ 5 :=
  ⟨by decide,
    (retrieval_sorted_bounded_complete (fun r => (r.log_timestamp.wall : ℚ))
      [⟨"a", "E", "m1", ⟨2, some 0⟩, [], none⟩,
       ⟨"b", "E", "m2", ⟨1, some 0⟩, [], none⟩]
      ⟨"q", LogQueryFilters.none_, 5⟩ (by decide)).2.1⟩

/-- C8 counterexample: a present service filter holding the empty string is
falsy in Python, so `_build_query` attaches no clause for it — a record
whose service differs from the filter's value is still returned, so the
present filter did not restrict the candidate set. -/
theorem empty_service_filter_ignored :
    (LogQueryFilters.mk (some "") none none none).service = some "" ∧
    RAGPipeline.retrieve (fun _ => (0 : ℚ))
        [⟨"api", "ERROR", "m", ⟨0, some 0⟩, [], none⟩]
        ⟨"q", ⟨some "", none, none, none⟩, 5⟩ =
      [(⟨"api", "ERROR", "m", ⟨0, some 0⟩, [], none⟩, 0)] ∧
    ("api" : String) ≠ "" := by
  refine ⟨rfl, ?_, by decide⟩
  simp [RAGPipeline.retrieve, execSelect, build_query, rowMatches]

/-- C8 (amended): the present non-empty filters are attached as where-clauses
and combined with logical AND — every returned candidate satisfies all of
them; an absent filter, or a present empty-string service or level filter
(falsy in Python, hence treated as absent), imposes no constraint; and
filters never affect ordering among surviving candidates: for every filter
combination the result is ordered by the same ascending-score ranking the
unfiltered query uses. -/
theorem filters_conjunctive_order_preserved (dist : LogRecord → ℚ)
    (db : List LogRecord) (request : LogQueryRequest) :
    (∀ x ∈ RAGPipeline.retrieve dist db request,
       rowMatches (build_query request.filters request.limit) x.1 = true) ∧
    (∀ s, request.filters.service = some s → s ≠ "" →
       ∀ x ∈ RAGPipeline.retrieve dist db request, x.1.service = s) ∧
    (∀ s, request.filters.level = some s → s ≠ "" →
       ∀ x ∈ RAGPipeline.retrieve dist db request, x.1.level = s) ∧
    (∀ t, request.filters.start_time = some t →
       ∀ x ∈ RAGPipeline.retrieve dist db request,
         t.instant ≤ x.1.log_timestamp.instant) ∧
    (∀ t, request.filters.end_time = some t →
       ∀ x ∈ RAGPipeline.retrieve dist db request,
         x.1.log_timestamp.instant ≤ t.instant) ∧
    (∀ r, rowMatches (build_query LogQueryFilters.none_ request.limit) r = true) ∧
    (RAGPipeline.retrieve dist db request).Pairwise (fun a b => a.2 ≤ b.2) := by
  refine ⟨mem_retrieve_matches dist db request, ?_, ?_, ?_, ?_, ?_,
    retrieve_sorted dist db request⟩
  · intro s hs hne x hx
    have hq : (build_query request.filters request.limit).serviceEq = some s := by
      simp [build_query, hs, hne]
    exact (rowMatches_spec _ _ (mem_retrieve_matches dist db request x hx)).1 s hq
  · intro s hs hne x hx
    have hq : (build_query request.filters request.limit).levelEq = some s := by
      simp [build_query, hs, hne]
    exact (rowMatches_spec _ _ (mem_retrieve_matches dist db request x hx)).2.1 s hq
  · intro t ht x hx
    have hq : (build_query request.filters request.limit).tsGe = some t := by
      simp [build_query, ht]
    exact (rowMatches_spec _ _ (mem_retrieve_matches dist db request x hx)).2.2.1 t hq
  · intro t ht x hx
    have hq : (build_query request.filters request.limit).tsLe = some t := by
      simp [build_query, ht]
    exact (rowMatches_spec _ _ (mem_retrieve_matches dist db request x hx)).2.2.2 t hq
  · intro r
    simp [rowMatches, build_query, LogQueryFilters.none_]

/-- Witness for the C8 amended theorem: with service and level filters both
set, the single returned candidate satisfies both. -/
theorem filters_conjunctive_order_preserved_witness :
    (LogQueryFilters.mk (some "api") (some "ERROR") none none).service = some "api" ∧
    ("api" : String) ≠ "" ∧
    ((⟨"api", "ERROR", "m", ⟨0, some 0⟩, [], none⟩ : LogRecord), (0 : ℚ)) ∈
      RAGPipeline.retrieve (fun _ => (0 : ℚ))
        [⟨"api", "ERROR", "m", ⟨0, some 0⟩, [], none⟩,
         ⟨"db", "INFO", "n", ⟨0, some 0⟩, [], none⟩]
        ⟨"q", ⟨some "api", some "ERROR", none, none⟩, 5⟩ ∧
    (⟨"api", "ERROR", "m", ⟨0, some 0⟩, [], none⟩ : LogRecord).service = "api" := by
  refine ⟨rfl, by decide, ?_, ?_⟩
  · simp [RAGPipeline.retrieve, execSelect, build_query, rowMatches]
  · exact (filters_conjunctive_order_preserved (fun _ => (0 : ℚ))
      [⟨"api", "ERROR", "m", ⟨0, some 0⟩, [], none⟩,
       ⟨"db", "INFO", "n", ⟨0, some 0⟩, [], none⟩]
      ⟨"q", ⟨some "api", some "ERROR", none, none⟩, 5⟩).2.1 "api" rfl (by decide)
      (⟨"api", "ERROR", "m", ⟨0, some 0⟩, [], none⟩, (0 : ℚ))
      (by simp [RAGPipeline.retrieve, execSelect, build_query, rowMatches])

/-- `_fallback_answer` on a non-empty log list is the reason, the question,
a header and one listing line per log, joined by newlines. -/
theorem fallback_answer_cons (le : Option String) (q : String)
    (logs : List LogView) (hne : logs ≠ []) :
    fallback_answer le q logs =
      String.intercalate "\n"
        (((le.getD "Unable to access the configured LLM.")
            ++ " Returning raw log details instead.") ::
         ("Question: " ++ q) ::
         "Top matching logs:" ::
         logs.map fallbackLine) := by
  unfold fallback_answer
  rw [if_neg (by simp [hne])]
  rfl

/-- When the provider is unavailable (or the completion strips to empty),
`generate` returns the fallback answer with the post-ensure state. -/
theorem generate_fallback (st : LLMState) (env : LLMEnv) (q : String)
    (logs : List LogView)
    (h : (ensure_model st env).available = false ∨ env.completionText.trim = "") :
    generate st env q logs =
      ((ensure_model st env).st,
        fallback_answer (ensure_model st env).st.loadError q logs) := by
  unfold generate
  rcases h with h | h
  · simp [h]
  · by_cases ha : (ensure_model st env).available <;> simp [ha, h]

/-- C1 (amended): whenever the Generation Provider is unavailable
(unconfigured, load failed, missing file, missing bindings) or returns empty
text after trimming, the Answer Synthesizer's answer is produced without
raising and deterministically: with zero retrieved candidates it is the
plain statement that no relevant logs were found; otherwise it is the
recorded unavailability reason followed by the question, a header, and one
literal line with each candidate's timestamp, service, level and message, in
retrieval order (best match first) — covering every candidate in the
configured context prefix, i.e. the first `max_context_logs` retrieved
candidates (all retrieved candidates whenever at most `max_context_logs`
were retrieved), not every retrieved candidate. -/
theorem fallback_extractive (settings : Settings) (st : LLMState)
    (env : LLMEnv) (dist : LogRecord → ℚ) (db : List LogRecord)
    (request : LogQueryRequest) (hk : 0 < settings.max_context_logs)
    (h : (ensure_model st env).available = false ∨ env.completionText.trim = "") :
    (RAGPipeline.retrieve dist db request = [] →
       (RAGPipeline.answer settings st env dist db request).2.answer =
         "No relevant logs were found to answer the question.") ∧
    (RAGPipeline.retrieve dist db request ≠ [] →
       (RAGPipeline.answer settings st env dist db request).2.answer =
         String.intercalate "\n"
           ((((ensure_model st env).st.loadError.getD
                "Unable to access the configured LLM.")
               ++ " Returning raw log details instead.") ::
            ("Question: " ++ request.query) ::
            "Top matching logs:" ::
            (((RAGPipeline.retrieve dist db request).map fun rc =>
                rc.1.toView).take settings.max_context_logs).map fallbackLine)) := by
  have hans : (RAGPipeline.answer settings st env dist db request).2.answer =
      fallback_answer (ensure_model st env).st.loadError request.query
        (((RAGPipeline.retrieve dist db request).map fun rc =>
            rc.1.toView).take settings.max_context_logs) := by
    simp only [RAGPipeline.answer]
    rw [generate_fallback st env request.query _ h]
  constructor
  · intro hempty
    rw [hans, hempty]
    simp [fallback_answer]
  · intro hne
    rw [hans]
    apply fallback_answer_cons
    intro hcontra
    rw [List.take_eq_nil_iff] at hcontra
    rcases hcontra with h0 | h0
    · omega
    · exact hne (List.map_eq_nil_iff.mp h0)

/-- Witness for the C1 amended theorem: an Unconfigured provider with an
empty database yields the plain no-relevant-logs statement. -/
theorem fallback_extractive_witness :
    (RAGPipeline.answer defaultSettings (LLMService.init none)
        ⟨true, true, .ok (), ""⟩ (fun _ => (0 : ℚ)) []
        ⟨"q", LogQueryFilters.none_, 5⟩).2.answer =
      "No relevant logs were found to answer the question." := by
  have hr : RAGPipeline.retrieve (fun _ => (0 : ℚ)) []
      ⟨"q", LogQueryFilters.none_, 5⟩ = [] := by
    simp [RAGPipeline.retrieve, execSelect]
  exact (fallback_extractive defaultSettings (LLMService.init none)
    ⟨true, true, .ok (), ""⟩ (fun _ => (0 : ℚ)) []
    ⟨"q", LogQueryFilters.none_, 5⟩ (by decide) (Or.inl (by decide))).1 hr

set_option maxRecDepth 10000 in
/-- C1 counterexample: with the default context size (10) and eleven
retrieved candidates, the Unconfigured provider's fallback answer lists only
the first ten candidates: the eleventh candidate was retrieved (and is
counted by `used_k`), yet its listing line occurs nowhere in the answer, so
the listing does not cover every retrieved candidate. -/
theorem fallback_omits_eleventh_candidate :
    ((⟨"s", "E", "m10", ⟨10, some 0⟩, [], none⟩ : LogRecord), (10 : ℚ)) ∈
      RAGPipeline.retrieve sampleDist sampleDb sampleRequest ∧
    (RAGPipeline.answer defaultSettings (LLMService.init none)
        ⟨true, true, .ok (), ""⟩ sampleDist sampleDb sampleRequest).2.used_k = 11 ∧
    ¬ ((fallbackLine (LogRecord.toView
          ⟨"s", "E", "m10", ⟨10, some 0⟩, [], none⟩)).data <:+:
        ((RAGPipeline.answer defaultSettings (LLMService.init none)
            ⟨true, true, .ok (), ""⟩ sampleDist sampleDb
            sampleRequest).2.answer).data) := by
  have hfil : sampleDb.filter
      (rowMatches (build_query sampleRequest.filters sampleRequest.limit)) =
      sampleDb := by decide
  have hsorted : ((sampleDb.map fun r => (r, sampleDist r)).Pairwise
      fun a b : LogRecord × ℚ => decide (a.2 ≤ b.2) = true) := by decide
  have hretr : RAGPipeline.retrieve sampleDist sampleDb sampleRequest =
      sampleDb.map fun r => (r, sampleDist r) := by
    unfold RAGPipeline.retrieve execSelect
    rw [hfil, List.mergeSort_of_sorted hsorted]
    exact List.take_of_length_le (by decide)
  refine ⟨?_, ?_, ?_⟩
  · rw [hretr]
    decide
  · simp only [RAGPipeline.answer, hretr]
    decide
  · have hans : (RAGPipeline.answer defaultSettings (LLMService.init none)
        ⟨true, true, .ok (), ""⟩ sampleDist sampleDb
        sampleRequest).2.answer =
        fallback_answer (some "No LLM model path configured.") "q"
          (((sampleDb.map fun r => (r, sampleDist r)).map fun rc =>
              rc.1.toView).take 10) := by
      simp only [RAGPipeline.answer, hretr]
      rw [generate_fallback _ _ _ _ (Or.inl (by decide))]
      rfl
    rw [hans]
    decide

end Logiq
